import Mathlib

/-!
Verification of the waveform-generator and request-transformation pipeline of
the `gce-metric` repository, as a shallow embedding in Lean.

Conventions of the embedding:

* Go `float64` values are modelled as real numbers.  Every floating-point
  constant written in the source is embedded as the exact rational value of
  the `float64` it denotes; in particular Go's `math.Pi` is the float64
  nearest to π, which is strictly below π, and that gap is what decides the
  square-wave boundary behaviour.  `math.Sin`, `math.Floor`, `math.Abs`,
  `math.Min` and `math.Max` are modelled by the corresponding exact real
  operations (`Real.sin` is sign-faithful for the arguments appearing in the
  claims, whose distance to the zeros of sin is far above one ulp).
* `math.Signbit x` is modelled as `x < 0` (the reals have no negative zero;
  no call site below can produce a float negative zero from a positive-zero
  argument).
* Maps of labels are modelled as association lists in source order.
* A Go function mutating a `*CreateTimeSeriesRequest` and returning `error`
  is modelled as a pure function `Option CreateTimeSeriesRequest →
  Except PipelineError CreateTimeSeriesRequest`; the `none` argument models
  a nil pointer.  Every transformer in the source checks for nil before any
  mutation, so the error case never carries partial writes.
-/

namespace generators

/-- The exact rational value of the Go `float64` constant `math.Pi`,
`0x1.921FB54442D18p+1 = 884279719003555 / 2^48`.  It is strictly smaller
than the real number π. -/
noncomputable def goPi : ℝ := 884279719003555 / 281474976710656

/-- Model of `PeriodicType` is `type PeriodicType int` in `pkg/generators/types.go`. -/
def Invalid : ℤ := 0

/-- The `Sawtooth` constant of the `iota` block. -/
def Sawtooth : ℤ := 1

/-- The `Sine` constant of the `iota` block. -/
def Sine : ℤ := 2

/-- The `Square` constant of the `iota` block. -/
def Square : ℤ := 3

/-- The `Triangle` constant of the `iota` block. -/
def Triangle : ℤ := 4

/-- The closure returned for `Invalid` (and by the `default` branch):
`func(_ float64) float64 { return 0.0 }`. -/
def invalidCalculator : ℝ → ℝ := fun _ => 0

/-- The closure returned for `Sawtooth`:
`func(phase float64) float64 { return phase - math.Floor(phase) }`. -/
noncomputable def sawtoothCalculator : ℝ → ℝ := fun phase => phase - (⌊phase⌋ : ℝ)

/-- The closure returned for `Sine`:
`0.5 + math.Sin(math.Pi*2.0*(phase-0.25))/2.0`.  In Go, `math.Pi*2.0` is an
exact constant expression rounded once to float64; that rounded value equals
`2 * goPi`, so the embedding keeps the source's spelling `goPi * 2 * _`. -/
noncomputable def sineCalculator : ℝ → ℝ := fun phase =>
  0.5 + Real.sin (goPi * 2 * (phase - 0.25)) / 2

/-- The closure returned for `Square`:
`if math.Signbit(math.Sin(math.Pi * 2.0 * phase)) { return 1.0 }; return 0.0`. -/
noncomputable def squareCalculator : ℝ → ℝ := fun phase =>
  if Real.sin (goPi * 2 * phase) < 0 then 1 else 0

/-- The closure returned for `Triangle`:
`math.Abs(2.0 * (phase - math.Floor(0.5+(phase))))`. -/
noncomputable def triangleCalculator : ℝ → ℝ := fun phase =>
  |2 * (phase - (⌊0.5 + phase⌋ : ℝ))|

/-- Model of `(pt PeriodicType) ValueCalculator()` from `pkg/generators/types.go`:
the switch over the known periodic types, with the `default` branch
returning the zero calculator. -/
noncomputable def valueCalculator (pt : ℤ) : ℝ → ℝ :=
  if pt = Invalid then invalidCalculator
  else if pt = Sawtooth then sawtoothCalculator
  else if pt = Sine then sineCalculator
  else if pt = Square then squareCalculator
  else if pt = Triangle then triangleCalculator
  else invalidCalculator

/-- Model of `NewPeriodicRangeCalculator(a, b float64, periodicType PeriodicType)`:
`minimumValue := math.Min(a, b)`, `delta := math.Abs(a - b)`, and the
returned closure computes `delta*unitCalculator(phase) + minimumValue`. -/
noncomputable def NewPeriodicRangeCalculator (a b : ℝ) (periodicType : ℤ) : ℝ → ℝ :=
  fun phase => |a - b| * valueCalculator periodicType phase + min a b

/-- Go `time.Time` restricted to what the pipeline reads: whole seconds since
the Unix epoch and the sub-second offset in nanoseconds. -/
structure Time where
  sec : ℤ
  nsec : ℤ

/-- Model of `time.Time.Unix()`: the whole-seconds part of the timestamp; any
sub-second component is discarded. -/
def Time.unix (t : Time) : ℤ := t.sec

/-- Model of `time.Time.Sub`: the difference of two times as a `time.Duration`,
an integer count of nanoseconds. -/
def Time.sub (t u : Time) : ℤ := (t.sec - u.sec) * 1000000000 + (t.nsec - u.nsec)

/-- Model of `time.Duration.Seconds()`: the duration converted to float64 seconds. -/
noncomputable def durationSeconds (d : ℤ) : ℝ := (d : ℝ) / 1000000000

/-- Model of `generators.Metric`: a point-in-time generated value with its timestamp. -/
structure Metric where
  value : ℝ
  timestamp : Time

/-- The producer-local state of the goroutine returned by
`NewPeriodicGenerator`: `tZero` is the timestamp recorded by the
`sync.Once` on the first received tick (`none` before any tick), and
`channel` is the content of the buffered output channel. -/
structure ProducerState where
  tZero : Option Time
  channel : List Metric

/-- One iteration of the `case tick := <-ticker` branch of the generator
loop in `pkg/generators/generators.go`: record the first tick as phase
zero, compute the metric from the elapsed time divided by the period, and
perform the non-blocking send (`select` with `default`): the metric is
appended when the buffered channel has spare capacity and dropped
otherwise. -/
noncomputable def producerTick (calculator : ℝ → ℝ) (period : ℤ) (bufferSize : ℕ)
    (s : ProducerState) (tick : Time) : ProducerState :=
  let tZero := s.tZero.getD tick
  let metric : Metric :=
    { value := calculator (durationSeconds (tick.sub tZero) / durationSeconds period)
      timestamp := tick }
  { tZero := some tZero
    channel := if s.channel.length < bufferSize then s.channel ++ [metric] else s.channel }

/-- The generator loop run over a finite sequence of ticks, starting from
the initial state (no first tick recorded, empty channel). -/
noncomputable def producerRun (calculator : ℝ → ℝ) (period : ℤ) (bufferSize : ℕ)
    (ticks : List Time) : ProducerState :=
  ticks.foldl (producerTick calculator period bufferSize) { tZero := none, channel := [] }

end generators

namespace pipeline

/-- The error values a transformer can produce:
`ErrNilCreateTimeSeriesRequest` from `pkg/pipeline/transformers.go`, or any
other error (user-supplied transformers are arbitrary). -/
inductive PipelineError
  | errNilCreateTimeSeriesRequest
  | errOther (msg : String)

/-- Model of `timestamppb.Timestamp` as constructed by the value transformers: only
the `Seconds` field is ever set (`Nanos` stays zero). -/
structure ProtoTimestamp where
  seconds : ℤ

/-- Model of `monitoringpb.TimeInterval`. -/
structure TimeInterval where
  startTime : ProtoTimestamp
  endTime : ProtoTimestamp

/-- The `monitoringpb.TypedValue` variants used by the value transformers. -/
inductive TypedValue
  | doubleValue (v : ℝ)
  | int64Value (v : ℤ)

/-- Model of `monitoringpb.Point`. -/
structure Point where
  interval : TimeInterval
  value : TypedValue

/-- Model of `monitoredrespb.MonitoredResource`: a resource kind and its labels
(modelled as an association list in source order). -/
structure MonitoredResource where
  type : String
  labels : List (String × String)

/-- Model of `metricpb.MetricDescriptor_MetricKind`; only `GAUGE` is used. -/
inductive MetricKind
  | METRIC_KIND_UNSPECIFIED
  | GAUGE
  | DELTA
  | CUMULATIVE

/-- Model of `metricpb.Metric`: the metric identity (type string and labels). -/
structure MetricIdentity where
  type : String
  labels : List (String × String)

/-- Model of `monitoringpb.TimeSeries`, restricted to the fields the pipeline
touches.  A nil `Resource` pointer is `none`; a nil points slice is `[]`. -/
structure TimeSeries where
  metric : MetricIdentity
  metricKind : MetricKind
  resource : Option MonitoredResource
  points : List Point

/-- Model of `monitoringpb.CreateTimeSeriesRequest`, restricted to the fields the
pipeline touches. -/
structure CreateTimeSeriesRequest where
  name : String
  timeSeries : List TimeSeries

/-- Model of `pipeline.Transformer`: in Go a function mutating a
`*CreateTimeSeriesRequest` (possibly nil) and returning an error; embedded
as a pure function from an optional request to an updated request or an
error. -/
def Transformer :=
  Option CreateTimeSeriesRequest → generators.Metric →
    Except PipelineError CreateTimeSeriesRequest

/-- Model of `NewGenericMonitoredResourceTransformer(projectID, location, namespace,
nodeID)` (the Go parameter `namespace` is renamed `namespaceID`, a Lean
keyword): replaces the resource of every series with a `generic_node`
descriptor. -/
def NewGenericMonitoredResourceTransformer
    (projectID location namespaceID nodeID : String) : Transformer :=
  fun req _ =>
    match req with
    | none => .error .errNilCreateTimeSeriesRequest
    | some r => .ok { r with timeSeries := r.timeSeries.map fun series =>
        { series with resource := some {
            type := "generic_node"
            labels := [("project_id", projectID), ("location", location),
              ("namespace", namespaceID), ("node_id", nodeID)] } } }

/-- Model of `NewGCEMonitoredResourceTransformer(projectID, instanceID, zone)`:
replaces the resource of every series with a `gce_instance` descriptor. -/
def NewGCEMonitoredResourceTransformer
    (projectID instanceID zone : String) : Transformer :=
  fun req _ =>
    match req with
    | none => .error .errNilCreateTimeSeriesRequest
    | some r => .ok { r with timeSeries := r.timeSeries.map fun series =>
        { series with resource := some {
            type := "gce_instance"
            labels := [("project_id", projectID), ("instance_id", instanceID),
              ("zone", zone)] } } }

/-- Model of `NewGKEMonitoredResourceTransformer`: replaces the resource of every
series with a `gke_container` descriptor. -/
def NewGKEMonitoredResourceTransformer
    (projectID clusterName namespaceID instanceID podID containerName zone : String) :
    Transformer :=
  fun req _ =>
    match req with
    | none => .error .errNilCreateTimeSeriesRequest
    | some r => .ok { r with timeSeries := r.timeSeries.map fun series =>
        { series with resource := some {
            type := "gke_container"
            labels := [("project_id", projectID), ("cluster_name", clusterName),
              ("namespace_id", namespaceID), ("instance_id", instanceID),
              ("pod_id", podID), ("container_name", containerName),
              ("zone", zone)] } } }

/-- Model of `int64(math.Round(x))`: Go's `math.Round` rounds to the nearest
integer, half away from zero; the `int64` conversion of the integral
result is exact. -/
noncomputable def mathRound (x : ℝ) : ℤ :=
  if x < 0 then -⌊-x + 0.5⌋ else ⌊x + 0.5⌋

/-- Model of `NewDoubleTypedValueTransformer()`: replaces the points of every series
with a single data point carrying the sample value as a double, with the
interval start and end both set to the sample timestamp's Unix seconds. -/
def NewDoubleTypedValueTransformer : Transformer :=
  fun req metric =>
    match req with
    | none => .error .errNilCreateTimeSeriesRequest
    | some r => .ok { r with timeSeries := r.timeSeries.map fun series =>
        { series with points :=
          [{ interval :=
              { startTime := { seconds := metric.timestamp.unix }
                endTime := { seconds := metric.timestamp.unix } }
             value := .doubleValue metric.value }] } }

/-- Model of `NewIntegerTypedValueTransformer()`: replaces the points of every
series with a single data point carrying the sample value rounded to the
nearest integer, with the interval start and end both set to the sample
timestamp's Unix seconds. -/
noncomputable def NewIntegerTypedValueTransformer : Transformer :=
  fun req metric =>
    match req with
    | none => .error .errNilCreateTimeSeriesRequest
    | some r => .ok { r with timeSeries := r.timeSeries.map fun series =>
        { series with points :=
          [{ interval :=
              { startTime := { seconds := metric.timestamp.unix }
                endTime := { seconds := metric.timestamp.unix } }
             value := .int64Value (mathRound metric.value) }] } }

/-- Model of `NewGenericKubernetesClusterMonitoredResourceTransformer`: replaces the
resource of every series with a `k8s_cluster` descriptor. -/
def NewGenericKubernetesClusterMonitoredResourceTransformer
    (projectID location clusterName : String) : Transformer :=
  fun req _ =>
    match req with
    | none => .error .errNilCreateTimeSeriesRequest
    | some r => .ok { r with timeSeries := r.timeSeries.map fun series =>
        { series with resource := some {
            type := "k8s_cluster"
            labels := [("project_id", projectID), ("location", location),
              ("cluster_name", clusterName)] } } }

/-- Model of `NewGenericKubernetesContainerMonitoredResourceTransformer`: replaces
the resource of every series with a `k8s_container` descriptor. -/
def NewGenericKubernetesContainerMonitoredResourceTransformer
    (projectID location clusterName namespaceID podID containerName : String) :
    Transformer :=
  fun req _ =>
    match req with
    | none => .error .errNilCreateTimeSeriesRequest
    | some r => .ok { r with timeSeries := r.timeSeries.map fun series =>
        { series with resource := some {
            type := "k8s_container"
            labels := [("project_id", projectID), ("location", location),
              ("cluster_name", clusterName), ("namespace_name", namespaceID),
              ("pod_name", podID), ("container_name", containerName)] } } }

/-- Model of `NewGenericKubernetesNodeMonitoredResourceTransformer`: replaces the
resource of every series with a `k8s_node` descriptor. -/
def NewGenericKubernetesNodeMonitoredResourceTransformer
    (projectID location clusterName nodeName : String) : Transformer :=
  fun req _ =>
    match req with
    | none => .error .errNilCreateTimeSeriesRequest
    | some r => .ok { r with timeSeries := r.timeSeries.map fun series =>
        { series with resource := some {
            type := "k8s_node"
            labels := [("project_id", projectID), ("location", location),
              ("cluster_name", clusterName), ("node_name", nodeName)] } } }

/-- Model of `NewGenericKubernetesPodMonitoredResourceTransformer`: replaces the
resource of every series with a `k8s_pod` descriptor. -/
def NewGenericKubernetesPodMonitoredResourceTransformer
    (projectID location clusterName namespaceID podID : String) : Transformer :=
  fun req _ =>
    match req with
    | none => .error .errNilCreateTimeSeriesRequest
    | some r => .ok { r with timeSeries := r.timeSeries.map fun series =>
        { series with resource := some {
            type := "k8s_pod"
            labels := [("project_id", projectID), ("location", location),
              ("cluster_name", clusterName), ("namespace_name", namespaceID),
              ("pod_name", podID)] } } }

/-- The fields of `pipeline.Pipeline` that `BuildRequest` reads. -/
structure Pipeline where
  projectID : String
  metricType : String
  metricLabels : List (String × String)
  transformers : List Transformer

/-- The fresh request allocated at the top of `Pipeline.BuildRequest`: one
series entry pre-populated with the configured metric type and labels and
the `GAUGE` metric kind. -/
def initialRequest (p : Pipeline) : CreateTimeSeriesRequest :=
  { name := "projects/" ++ p.projectID
    timeSeries := [{ metric := { type := p.metricType, labels := p.metricLabels }
                     metricKind := .GAUGE
                     resource := none
                     points := [] }] }

/-- The transformer loop of `Pipeline.BuildRequest`: apply each transformer
in order to the request under construction; on the first error stop and
return the request built so far together with that error. -/
def runTransformers :
    List Transformer → CreateTimeSeriesRequest → generators.Metric →
      CreateTimeSeriesRequest × Option PipelineError
  | [], req, _ => (req, none)
  | transformer :: rest, req, metric =>
    match transformer (some req) metric with
    | .error e => (req, some e)
    | .ok req2 => runTransformers rest req2 metric

/-- Model of `Pipeline.BuildRequest(metric)`. -/
def Pipeline.BuildRequest (p : Pipeline) (metric : generators.Metric) :
    CreateTimeSeriesRequest × Option PipelineError :=
  runTransformers p.transformers (initialRequest p) metric

/-- All-or-nothing application of a transformer list, used to state which
prefix of the chain has fully succeeded. -/
def applyAll :
    List Transformer → CreateTimeSeriesRequest → generators.Metric →
      Except PipelineError CreateTimeSeriesRequest
  | [], req, _ => .ok req
  | transformer :: rest, req, metric =>
    match transformer (some req) metric with
    | .error e => .error e
    | .ok req2 => applyAll rest req2 metric

/-- Two successive applications of one transformer with the same sample
(the second application consumes the request produced by the first). -/
def applyTwice (transformer : Transformer) (req : CreateTimeSeriesRequest)
    (metric : generators.Metric) : Except PipelineError CreateTimeSeriesRequest :=
  match transformer (some req) metric with
  | .error e => .error e
  | .ok req2 => transformer (some req2) metric

/-- The interval of every data point of every series of a transformer
result (empty for an error). -/
def requestIntervals (res : Except PipelineError CreateTimeSeriesRequest) :
    List (List TimeInterval) :=
  match res with
  | .error _ => []
  | .ok r => r.timeSeries.map fun series => series.points.map fun p => p.interval

/-- A concrete single-series request used by the evaluation witnesses. -/
def sampleRequest : CreateTimeSeriesRequest :=
  { name := "projects/test-project"
    timeSeries := [{ metric := { type := "custom.googleapis.com/gce_metric", labels := [] }
                     metricKind := .GAUGE
                     resource := none
                     points := [] }] }

/-- A concrete request with no series entries, used by the no-op witnesses. -/
def sampleEmptyRequest : CreateTimeSeriesRequest :=
  { name := "projects/test-project", timeSeries := [] }

/-- A concrete sample used by the evaluation witnesses: value 5.5 and a
timestamp with a nonzero sub-second component. -/
noncomputable def sampleMetric : generators.Metric :=
  { value := 5.5, timestamp := { sec := 1700000000, nsec := 500000000 } }

end pipeline

namespace generators

theorem valueCalculator_sawtooth : valueCalculator Sawtooth = sawtoothCalculator := by
  norm_num [valueCalculator, Invalid, Sawtooth]

theorem valueCalculator_sine : valueCalculator Sine = sineCalculator := by
  norm_num [valueCalculator, Invalid, Sawtooth, Sine]

theorem valueCalculator_square : valueCalculator Square = squareCalculator := by
  norm_num [valueCalculator, Invalid, Sawtooth, Sine, Square]

theorem valueCalculator_triangle : valueCalculator Triangle = triangleCalculator := by
  norm_num [valueCalculator, Invalid, Sawtooth, Sine, Square, Triangle]

/-- The float64 `math.Pi` is strictly below the real π (`pi_gt_d20` gives
20 correct digits, reaching well past the float64 rounding gap). -/
theorem goPi_lt_pi : goPi < Real.pi := by
  have h20 := Real.pi_gt_d20
  have : goPi < 3.14159265358979323846 := by norm_num [goPi]
  linarith

theorem goPi_pos : 0 < goPi := by norm_num [goPi]

/-- sin is nonnegative between 0 and π, hence the square branch is not taken. -/
theorem sin_nonneg_of_mem (r : ℝ) (h0 : 0 ≤ r) (h1 : r ≤ Real.pi) :
    ¬ Real.sin r < 0 := by
  exact not_lt.mpr (Real.sin_nonneg_of_nonneg_of_le_pi h0 h1)

/-- sin is negative strictly between π and 2π. -/
theorem sin_neg_of_between (r : ℝ) (h0 : Real.pi < r) (h1 : r < 2 * Real.pi) :
    Real.sin r < 0 := by
  have h := @Real.sin_neg_of_neg_of_neg_pi_lt (r - 2 * Real.pi)
    (by linarith) (by linarith)
  rwa [Real.sin_sub_two_pi] at h

theorem squareCalculator_eval_zero (phase : ℝ) (h0 : 0 ≤ goPi * 2 * phase)
    (h1 : goPi * 2 * phase ≤ Real.pi) : squareCalculator phase = 0 := by
  unfold squareCalculator
  rw [if_neg (sin_nonneg_of_mem _ h0 h1)]

theorem squareCalculator_eval_one (phase : ℝ) (h0 : Real.pi < goPi * 2 * phase)
    (h1 : goPi * 2 * phase < 2 * Real.pi) : squareCalculator phase = 1 := by
  unfold squareCalculator
  rw [if_pos (sin_neg_of_between _ h0 h1)]

theorem square_at_zero : squareCalculator 0 = 0 :=
  squareCalculator_eval_zero 0 (by norm_num) (by simpa using Real.pi_pos.le)

theorem square_at_quarter : squareCalculator 0.25 = 0 := by
  refine squareCalculator_eval_zero _ (by norm_num [goPi]) ?_
  have h3 := Real.pi_gt_three
  have : goPi * 2 * (0.25 : ℝ) < 3 := by norm_num [goPi]
  linarith

theorem square_at_half : squareCalculator 0.5 = 0 := by
  refine squareCalculator_eval_zero _ (by norm_num [goPi]) ?_
  linarith [goPi_lt_pi]

theorem square_at_three_quarters : squareCalculator 0.75 = 1 := by
  refine squareCalculator_eval_one _ ?_ ?_
  · have h := Real.pi_lt_d2
    have : (3.15 : ℝ) < goPi * 2 * 0.75 := by norm_num [goPi]
    linarith
  · have h3 := Real.pi_gt_three
    have : goPi * 2 * (0.75 : ℝ) < 2 * 3 := by norm_num [goPi]
    linarith

theorem square_at_one : squareCalculator 1 = 1 := by
  refine squareCalculator_eval_one _ ?_ ?_
  · have h := Real.pi_lt_d2
    have : (3.15 : ℝ) < goPi * 2 * 1 := by norm_num [goPi]
    linarith
  · linarith [goPi_lt_pi]

/-- The drift counterexample phase for square-wave periodicity: `2 ^ (-55)`
is a float64, and the accumulated gap between `2 * goPi` and `2π` flips the
sign of the computed sine between this phase and this phase plus one. -/
theorem square_at_tiny : squareCalculator (1 / 2 ^ 55) = 0 := by
  refine squareCalculator_eval_zero _ (by norm_num [goPi]) ?_
  have h3 := Real.pi_gt_three
  have : goPi * 2 * ((1 : ℝ) / 2 ^ 55) < 3 := by norm_num [goPi]
  linarith

theorem square_at_tiny_plus_one : squareCalculator (1 / 2 ^ 55 + 1) = 1 := by
  refine squareCalculator_eval_one _ ?_ ?_
  · have h := Real.pi_lt_d2
    have : (3.15 : ℝ) < goPi * 2 * (1 / 2 ^ 55 + 1) := by norm_num [goPi]
    linarith
  · have h20 := Real.pi_gt_d20
    have : goPi * 2 * ((1 : ℝ) / 2 ^ 55 + 1) < 2 * 3.14159265358979323846 := by
      norm_num [goPi]
    linarith

theorem sawtoothCalculator_periodic (phase : ℝ) :
    sawtoothCalculator (phase + 1) = sawtoothCalculator phase := by
  unfold sawtoothCalculator
  rw [show phase + (1 : ℝ) = phase + ((1 : ℤ) : ℝ) by push_cast; ring,
    Int.floor_add_int]
  push_cast
  ring

theorem triangleCalculator_periodic (phase : ℝ) :
    triangleCalculator (phase + 1) = triangleCalculator phase := by
  unfold triangleCalculator
  rw [show (0.5 : ℝ) + (phase + 1) = 0.5 + phase + ((1 : ℤ) : ℝ) by push_cast; ring,
    Int.floor_add_int]
  push_cast
  ring_nf

/-- The computed sine waveform is periodic up to the float64 rounding gap of
π: the deviation is `π - goPi < 2 ^ (-52)`. -/
theorem sineCalculator_almost_periodic (phase : ℝ) :
    |sineCalculator (phase + 1) - sineCalculator phase| ≤ 1 / 2 ^ 52 := by
  unfold sineCalculator
  have harg : goPi * 2 * (phase + 1 - 0.25)
      = goPi * 2 * (phase - 0.25) + (2 * goPi - 2 * Real.pi) + 2 * Real.pi := by
    ring
  rw [harg, Real.sin_add_two_pi]
  set A := goPi * 2 * (phase - 0.25) with hA
  set d := 2 * goPi - 2 * Real.pi with hd
  have hsin : |Real.sin (A + d) - Real.sin A| ≤ |d| := by
    rw [Real.sin_sub_sin]
    have h1 : |Real.sin ((A + d - A) / 2)| ≤ |(A + d - A) / 2| :=
      Real.abs_sin_le_abs
    have h2 : |Real.cos ((A + d + A) / 2)| ≤ 1 := Real.abs_cos_le_one _
    calc |2 * Real.sin ((A + d - A) / 2) * Real.cos ((A + d + A) / 2)|
        = 2 * |Real.sin ((A + d - A) / 2)| * |Real.cos ((A + d + A) / 2)| := by
          rw [abs_mul, abs_mul]
          norm_num
      _ ≤ 2 * |(A + d - A) / 2| * 1 := by
          apply mul_le_mul (by nlinarith [abs_nonneg (Real.sin ((A + d - A) / 2))]) h2
            (abs_nonneg _) (by positivity)
      _ = |d| := by
          rw [show A + d - A = d by ring, abs_div, abs_two]
          ring
  have hdbound : |d| ≤ 2 * (3.14159265358979323847 - goPi) := by
    have h20hi := Real.pi_lt_d20
    have h20lo := goPi_lt_pi
    rw [hd, abs_of_nonpos (by linarith)]
    linarith
  have hfinal : 2 * ((3.14159265358979323847 : ℝ) - goPi) ≤ 2 * (1 / 2 ^ 52) := by
    norm_num [goPi]
  calc |0.5 + Real.sin (A + d) / 2 - (0.5 + Real.sin A / 2)|
      = |Real.sin (A + d) - Real.sin A| / 2 := by
        rw [show (0.5 : ℝ) + Real.sin (A + d) / 2 - (0.5 + Real.sin A / 2)
            = (Real.sin (A + d) - Real.sin A) / 2 by ring, abs_div]
        norm_num
    _ ≤ |d| / 2 := by linarith
    _ ≤ 1 / 2 ^ 52 := by linarith

theorem sawtoothCalculator_mem (phase : ℝ) :
    0 ≤ sawtoothCalculator phase ∧ sawtoothCalculator phase ≤ 1 := by
  unfold sawtoothCalculator
  have h1 := Int.floor_le phase
  have h2 := Int.lt_floor_add_one phase
  constructor <;> [linarith; linarith]

theorem sineCalculator_mem (phase : ℝ) :
    0 ≤ sineCalculator phase ∧ sineCalculator phase ≤ 1 := by
  unfold sineCalculator
  have h1 := Real.neg_one_le_sin (goPi * 2 * (phase - 0.25))
  have h2 := Real.sin_le_one (goPi * 2 * (phase - 0.25))
  constructor <;> [linarith; linarith]

theorem squareCalculator_mem (phase : ℝ) :
    0 ≤ squareCalculator phase ∧ squareCalculator phase ≤ 1 := by
  unfold squareCalculator
  split_ifs <;> norm_num

theorem triangleCalculator_mem (phase : ℝ) :
    0 ≤ triangleCalculator phase ∧ triangleCalculator phase ≤ 1 := by
  unfold triangleCalculator
  refine ⟨abs_nonneg _, ?_⟩
  have h1 := Int.floor_le (0.5 + phase)
  have h2 := Int.lt_floor_add_one (0.5 + phase)
  rw [abs_le]
  constructor <;> [linarith; linarith]

/-- Every named waveform calculator returns values in the unit interval. -/
theorem valueCalculator_mem (pt : ℤ) (phase : ℝ)
    (h : pt = Sawtooth ∨ pt = Sine ∨ pt = Square ∨ pt = Triangle) :
    0 ≤ valueCalculator pt phase ∧ valueCalculator pt phase ≤ 1 := by
  rcases h with h | h | h | h <;> subst h
  · rw [valueCalculator_sawtooth]; exact sawtoothCalculator_mem phase
  · rw [valueCalculator_sine]; exact sineCalculator_mem phase
  · rw [valueCalculator_square]; exact squareCalculator_mem phase
  · rw [valueCalculator_triangle]; exact triangleCalculator_mem phase

theorem sawtooth_at_half : sawtoothCalculator 0.5 = 0.5 := by
  unfold sawtoothCalculator
  rw [show ⌊(0.5 : ℝ)⌋ = 0 from Int.floor_eq_zero_iff.mpr (by constructor <;> norm_num)]
  norm_num

theorem sawtooth_at_one : sawtoothCalculator 1 = 0 := by
  unfold sawtoothCalculator
  rw [show ((1 : ℝ)) = ((1 : ℤ) : ℝ) by norm_num, Int.floor_intCast]
  norm_num

theorem producerTick_tZero (calculator : ℝ → ℝ) (period : ℤ) (bufferSize : ℕ)
    (s : ProducerState) (tick : Time) :
    (producerTick calculator period bufferSize s tick).tZero = some (s.tZero.getD tick) :=
  rfl

/-- Once the first tick has been recorded, later ticks never change it
(the `sync.Once` semantics). -/
theorem producer_keeps_tZero (calculator : ℝ → ℝ) (period : ℤ) (bufferSize : ℕ)
    (ticks : List Time) (s : ProducerState) (t0 : Time) (h : s.tZero = some t0) :
    (ticks.foldl (producerTick calculator period bufferSize) s).tZero = some t0 := by
  induction ticks generalizing s with
  | nil => exact h
  | cons t rest ih =>
    apply ih
    rw [producerTick_tZero, h]
    rfl

/-- After any run of the producer loop, the recorded phase-zero timestamp
is the first tick received, independent of construction time. -/
theorem producerRun_tZero (calculator : ℝ → ℝ) (period : ℤ) (bufferSize : ℕ)
    (ticks : List Time) :
    (producerRun calculator period bufferSize ticks).tZero = ticks.head? := by
  cases ticks with
  | nil => rfl
  | cons t rest =>
    show (rest.foldl (producerTick calculator period bufferSize)
      (producerTick calculator period bufferSize { tZero := none, channel := [] } t)).tZero
        = some t
    exact producer_keeps_tZero calculator period bufferSize rest _ t rfl

end generators

namespace pipeline

/-- The request returned by the transformer loop is always the result of
successfully applying some prefix of the chain to the starting request;
either that prefix is the whole chain and no error is reported, or the
next transformer after the prefix fails on the returned request with
exactly the reported error. -/
theorem runTransformers_split (ts : List Transformer)
    (req : CreateTimeSeriesRequest) (metric : generators.Metric) :
    ∃ k, k ≤ ts.length
      ∧ applyAll (ts.take k) req metric = .ok (runTransformers ts req metric).1
      ∧ (((runTransformers ts req metric).2 = none ∧ k = ts.length)
        ∨ ∃ e t rest, (runTransformers ts req metric).2 = some e
            ∧ ts.drop k = t :: rest
            ∧ t (some (runTransformers ts req metric).1) metric = .error e) := by
  induction ts generalizing req with
  | nil => exact ⟨0, le_rfl, rfl, Or.inl ⟨rfl, rfl⟩⟩
  | cons t rest ih =>
    cases htr : t (some req) metric with
    | error e =>
      have hrun : runTransformers (t :: rest) req metric = (req, some e) := by
        simp [runTransformers, htr]
      rw [hrun]
      exact ⟨0, Nat.zero_le _, rfl, Or.inr ⟨e, t, rest, rfl, rfl, htr⟩⟩
    | ok req2 =>
      obtain ⟨k, hk, happ, hres⟩ := ih req2
      have hrun : runTransformers (t :: rest) req metric
          = runTransformers rest req2 metric := by
        simp [runTransformers, htr]
      refine ⟨k + 1, by simpa using hk, ?_, ?_⟩
      · rw [hrun]
        simpa [applyAll, htr] using happ
      · rw [hrun]
        rcases hres with ⟨hnone, hlen⟩ | ⟨e, t2, rest2, herr, hdrop, hfail⟩
        · exact Or.inl ⟨hnone, by simp [hlen]⟩
        · exact Or.inr ⟨e, t2, rest2, herr, by simpa using hdrop, hfail⟩

end pipeline

namespace claims

open generators

/-- C2: the Square waveform calculator takes the values 0, 0, 0, 1, 1 at the
five test phases 0, 0.25, 0.5, 0.75 and 1. -/
theorem square_five_point_table :
    valueCalculator Square 0 = 0 ∧ valueCalculator Square 0.25 = 0
    ∧ valueCalculator Square 0.5 = 0 ∧ valueCalculator Square 0.75 = 1
    ∧ valueCalculator Square 1 = 1 := by
  rw [valueCalculator_square]
  exact ⟨square_at_zero, square_at_quarter, square_at_half,
    square_at_three_quarters, square_at_one⟩

/-- C1 (counterexample): the Square calculator does not return 1.0 at phase
0.5 — the float64 `math.Pi` is below π, so `sin(goPi * 2 * 0.5) = sin goPi`
is strictly positive and its sign bit is clear. -/
theorem square_half_not_one : valueCalculator Square 0.5 ≠ 1 := by
  rw [valueCalculator_square, square_at_half]
  norm_num

/-- C1 (amended): the Square calculator returns 0.0 at phase 0.5: the branch
taken is 1 only when the computed `sin(2π·phase)` has a negative sign bit,
and at phase 0.5 the argument is the float64 π, which is strictly below the
real π, so the computed sine is positive. -/
theorem square_half_eq_zero : valueCalculator Square 0.5 = 0 := by
  rw [valueCalculator_square]
  exact square_at_half

/-- C3 (counterexample): the Square calculator is not 1.0-periodic within
floating-point tolerance: at phase `2 ^ (-55)` (a float64) the calculator
returns 0 but at that phase plus 1.0 it returns 1, a difference of the full
amplitude. -/
theorem square_not_periodic :
    |valueCalculator Square (1 / 2 ^ 55 + 1) - valueCalculator Square (1 / 2 ^ 55)| = 1 := by
  rw [valueCalculator_square, square_at_tiny, square_at_tiny_plus_one]
  norm_num

/-- C3 (amended): of the four named waveform kinds, Sawtooth and Triangle are
exactly 1.0-periodic, and Sine is 1.0-periodic within `2 ^ (-52)` (the
deviation caused by the float64 rounding of π); the Square calculator is not
periodic at phases within about `2 ^ (-54)` of a half-period boundary. -/
theorem periodicity_amended (phase : ℝ) :
    valueCalculator Sawtooth (phase + 1) = valueCalculator Sawtooth phase
    ∧ valueCalculator Triangle (phase + 1) = valueCalculator Triangle phase
    ∧ |valueCalculator Sine (phase + 1) - valueCalculator Sine phase| ≤ 1 / 2 ^ 52 := by
  rw [valueCalculator_sawtooth, valueCalculator_triangle, valueCalculator_sine]
  exact ⟨sawtoothCalculator_periodic phase, triangleCalculator_periodic phase,
    sineCalculator_almost_periodic phase⟩

/-- C4: `NewPeriodicRangeCalculator(a, b, kind)` returns the function
`phase ↦ |a − b| · baseCalculator(phase) + min(a, b)`; for any bounds in
either order and any of the four named kinds its output lies in
`[min(a,b), max(a,b)]`; with bounds 10 and 20 and Sawtooth it returns 15.0
at phase 0.5 and 10.0 at phase 1.0. -/
theorem range_calculator_spec (a b : ℝ) (periodicType : ℤ) (phase : ℝ)
    (h : periodicType = Sawtooth ∨ periodicType = Sine ∨ periodicType = Square
      ∨ periodicType = Triangle) :
    NewPeriodicRangeCalculator a b periodicType phase
        = |a - b| * valueCalculator periodicType phase + min a b
    ∧ min a b ≤ NewPeriodicRangeCalculator a b periodicType phase
    ∧ NewPeriodicRangeCalculator a b periodicType phase ≤ max a b
    ∧ NewPeriodicRangeCalculator 10 20 Sawtooth 0.5 = 15
    ∧ NewPeriodicRangeCalculator 10 20 Sawtooth 1 = 10 := by
  obtain ⟨hu0, hu1⟩ := valueCalculator_mem periodicType phase h
  have habs : (0 : ℝ) ≤ |a - b| := abs_nonneg _
  have hmaxmin : max a b - min a b = |a - b| := by
    rw [abs_sub_comm]
    exact max_sub_min_eq_abs a b
  have h1020 : |(10 : ℝ) - 20| = 10 := by
    rw [show (10 : ℝ) - 20 = -10 by norm_num, abs_neg,
      abs_of_nonneg (by norm_num : (0 : ℝ) ≤ 10)]
  refine ⟨rfl, ?_, ?_, ?_, ?_⟩
  · unfold NewPeriodicRangeCalculator
    nlinarith
  · unfold NewPeriodicRangeCalculator
    nlinarith
  · unfold NewPeriodicRangeCalculator
    rw [valueCalculator_sawtooth, sawtooth_at_half, h1020,
      min_eq_left (by norm_num : (10 : ℝ) ≤ 20)]
    norm_num
  · unfold NewPeriodicRangeCalculator
    rw [valueCalculator_sawtooth, sawtooth_at_one, h1020,
      min_eq_left (by norm_num : (10 : ℝ) ≤ 20)]
    norm_num

/-- Witness for C4 at bounds 10 and 20, kind Sawtooth, phase 0.5. -/
theorem range_calculator_spec_witness :
    (Sawtooth = Sawtooth ∨ Sawtooth = Sine ∨ Sawtooth = Square
      ∨ Sawtooth = Triangle)
    ∧ (NewPeriodicRangeCalculator 10 20 Sawtooth 0.5
          = |(10 : ℝ) - 20| * valueCalculator Sawtooth 0.5 + min 10 20
      ∧ min (10 : ℝ) 20 ≤ NewPeriodicRangeCalculator 10 20 Sawtooth 0.5
      ∧ NewPeriodicRangeCalculator 10 20 Sawtooth 0.5 ≤ max 10 20
      ∧ NewPeriodicRangeCalculator 10 20 Sawtooth 0.5 = 15
      ∧ NewPeriodicRangeCalculator 10 20 Sawtooth 1 = 10) :=
  ⟨Or.inl rfl, range_calculator_spec 10 20 Sawtooth 0.5 (Or.inl rfl)⟩

end claims

namespace claims

open pipeline

/-- C5: `BuildRequest(sample)` allocates a fresh request with exactly one
series entry pre-populated with the configured metric type and static
labels (and the GAUGE kind), then runs the transformer chain in order; the
returned request is the successful application of a prefix of the chain,
and either the whole chain succeeded and no error is returned, or the
transformer immediately after that prefix fails on the returned
(partially-mutated) request with exactly the returned error. -/
theorem BuildRequest_spec (p : Pipeline) (metric : generators.Metric) :
    initialRequest p
        = { name := "projects/" ++ p.projectID
            timeSeries := [{ metric := { type := p.metricType, labels := p.metricLabels }
                             metricKind := .GAUGE
                             resource := none
                             points := [] }] }
    ∧ p.BuildRequest metric = runTransformers p.transformers (initialRequest p) metric
    ∧ ∃ k, k ≤ p.transformers.length
        ∧ applyAll (p.transformers.take k) (initialRequest p) metric
            = .ok (p.BuildRequest metric).1
        ∧ (((p.BuildRequest metric).2 = none ∧ k = p.transformers.length)
          ∨ ∃ e t rest, (p.BuildRequest metric).2 = some e
              ∧ p.transformers.drop k = t :: rest
              ∧ t (some (p.BuildRequest metric).1) metric = .error e) :=
  ⟨rfl, rfl, runTransformers_split p.transformers (initialRequest p) metric⟩

/-- C6: every transformer variant rejects a nil request with the
distinguished error `ErrNilCreateTimeSeriesRequest`, and on a request with
no series entries succeeds and returns the request unchanged. -/
theorem transformers_nil_and_no_series
    (projectID location namespaceID nodeID instanceID zone clusterName podID
      containerName nodeName : String)
    (r : CreateTimeSeriesRequest) (metric : generators.Metric)
    (h : r.timeSeries = []) :
    (NewGenericMonitoredResourceTransformer projectID location namespaceID nodeID
        none metric = .error .errNilCreateTimeSeriesRequest
      ∧ NewGenericMonitoredResourceTransformer projectID location namespaceID nodeID
        (some r) metric = .ok r)
    ∧ (NewGCEMonitoredResourceTransformer projectID instanceID zone
        none metric = .error .errNilCreateTimeSeriesRequest
      ∧ NewGCEMonitoredResourceTransformer projectID instanceID zone
        (some r) metric = .ok r)
    ∧ (NewGKEMonitoredResourceTransformer projectID clusterName namespaceID
        instanceID podID containerName zone
        none metric = .error .errNilCreateTimeSeriesRequest
      ∧ NewGKEMonitoredResourceTransformer projectID clusterName namespaceID
        instanceID podID containerName zone (some r) metric = .ok r)
    ∧ (NewDoubleTypedValueTransformer none metric
        = .error .errNilCreateTimeSeriesRequest
      ∧ NewDoubleTypedValueTransformer (some r) metric = .ok r)
    ∧ (NewIntegerTypedValueTransformer none metric
        = .error .errNilCreateTimeSeriesRequest
      ∧ NewIntegerTypedValueTransformer (some r) metric = .ok r)
    ∧ (NewGenericKubernetesClusterMonitoredResourceTransformer projectID location
        clusterName none metric = .error .errNilCreateTimeSeriesRequest
      ∧ NewGenericKubernetesClusterMonitoredResourceTransformer projectID location
        clusterName (some r) metric = .ok r)
    ∧ (NewGenericKubernetesContainerMonitoredResourceTransformer projectID location
        clusterName namespaceID podID containerName
        none metric = .error .errNilCreateTimeSeriesRequest
      ∧ NewGenericKubernetesContainerMonitoredResourceTransformer projectID location
        clusterName namespaceID podID containerName (some r) metric = .ok r)
    ∧ (NewGenericKubernetesNodeMonitoredResourceTransformer projectID location
        clusterName nodeName none metric = .error .errNilCreateTimeSeriesRequest
      ∧ NewGenericKubernetesNodeMonitoredResourceTransformer projectID location
        clusterName nodeName (some r) metric = .ok r)
    ∧ (NewGenericKubernetesPodMonitoredResourceTransformer projectID location
        clusterName namespaceID podID none metric
        = .error .errNilCreateTimeSeriesRequest
      ∧ NewGenericKubernetesPodMonitoredResourceTransformer projectID location
        clusterName namespaceID podID (some r) metric = .ok r) := by
  obtain ⟨nm, ts⟩ := r
  dsimp only at h
  subst h
  exact ⟨⟨rfl, rfl⟩, ⟨rfl, rfl⟩, ⟨rfl, rfl⟩, ⟨rfl, rfl⟩, ⟨rfl, rfl⟩,
    ⟨rfl, rfl⟩, ⟨rfl, rfl⟩, ⟨rfl, rfl⟩, ⟨rfl, rfl⟩⟩

/-- Witness for C6 on a concrete zero-series request and sample. -/
theorem transformers_nil_and_no_series_witness :
    sampleEmptyRequest.timeSeries = []
    ∧ ((NewGenericMonitoredResourceTransformer ("p") ("loc") ("ns") ("node")
          none sampleMetric = .error .errNilCreateTimeSeriesRequest
        ∧ NewGenericMonitoredResourceTransformer ("p") ("loc") ("ns") ("node")
          (some sampleEmptyRequest) sampleMetric = .ok sampleEmptyRequest)
      ∧ (NewGCEMonitoredResourceTransformer ("p") ("inst") ("zone")
          none sampleMetric = .error .errNilCreateTimeSeriesRequest
        ∧ NewGCEMonitoredResourceTransformer ("p") ("inst") ("zone")
          (some sampleEmptyRequest) sampleMetric = .ok sampleEmptyRequest)
      ∧ (NewGKEMonitoredResourceTransformer ("p") ("cluster") ("ns") ("inst") ("pod")
          ("cont") ("zone") none sampleMetric = .error .errNilCreateTimeSeriesRequest
        ∧ NewGKEMonitoredResourceTransformer ("p") ("cluster") ("ns") ("inst") ("pod")
          ("cont") ("zone") (some sampleEmptyRequest) sampleMetric
          = .ok sampleEmptyRequest)
      ∧ (NewDoubleTypedValueTransformer none sampleMetric
          = .error .errNilCreateTimeSeriesRequest
        ∧ NewDoubleTypedValueTransformer (some sampleEmptyRequest) sampleMetric
          = .ok sampleEmptyRequest)
      ∧ (NewIntegerTypedValueTransformer none sampleMetric
          = .error .errNilCreateTimeSeriesRequest
        ∧ NewIntegerTypedValueTransformer (some sampleEmptyRequest) sampleMetric
          = .ok sampleEmptyRequest)
      ∧ (NewGenericKubernetesClusterMonitoredResourceTransformer ("p") ("loc")
          ("cluster") none sampleMetric = .error .errNilCreateTimeSeriesRequest
        ∧ NewGenericKubernetesClusterMonitoredResourceTransformer ("p") ("loc")
          ("cluster") (some sampleEmptyRequest) sampleMetric = .ok sampleEmptyRequest)
      ∧ (NewGenericKubernetesContainerMonitoredResourceTransformer ("p") ("loc")
          ("cluster") ("ns") ("pod") ("cont") none sampleMetric
          = .error .errNilCreateTimeSeriesRequest
        ∧ NewGenericKubernetesContainerMonitoredResourceTransformer ("p") ("loc")
          ("cluster") ("ns") ("pod") ("cont") (some sampleEmptyRequest) sampleMetric
          = .ok sampleEmptyRequest)
      ∧ (NewGenericKubernetesNodeMonitoredResourceTransformer ("p") ("loc")
          ("cluster") ("node") none sampleMetric = .error .errNilCreateTimeSeriesRequest
        ∧ NewGenericKubernetesNodeMonitoredResourceTransformer ("p") ("loc")
          ("cluster") ("node") (some sampleEmptyRequest) sampleMetric
          = .ok sampleEmptyRequest)
      ∧ (NewGenericKubernetesPodMonitoredResourceTransformer ("p") ("loc")
          ("cluster") ("ns") ("pod") none sampleMetric
          = .error .errNilCreateTimeSeriesRequest
        ∧ NewGenericKubernetesPodMonitoredResourceTransformer ("p") ("loc")
          ("cluster") ("ns") ("pod") (some sampleEmptyRequest) sampleMetric
          = .ok sampleEmptyRequest)) :=
  ⟨rfl, transformers_nil_and_no_series ("p") ("loc") ("ns") ("node") ("inst") ("zone")
    ("cluster") ("pod") ("cont") ("node") sampleEmptyRequest sampleMetric rfl⟩

end claims

namespace pipeline

/-- Go's `math.Round` rounds half away from zero: `math.Round(5.5) = 6`. -/
theorem mathRound_5p5 : mathRound (5.5 : ℝ) = 6 := by
  unfold mathRound
  rw [if_neg (by norm_num), show (5.5 : ℝ) + 0.5 = ((6 : ℤ) : ℝ) by norm_num,
    Int.floor_intCast]

end pipeline

namespace claims

open pipeline

/-- C7: the integer-mode value transformer applied to any request with at
least one series and the sample `{value: 5.5, timestamp: T}` replaces each
series' point list with exactly one data point of integer value 6 (nearest
integer), whose interval start and end both equal T's Unix seconds. -/
theorem integer_transformer_rounds (r : CreateTimeSeriesRequest)
    (t : generators.Time) (_h : 0 < r.timeSeries.length) :
    NewIntegerTypedValueTransformer (some r) { value := 5.5, timestamp := t }
      = .ok { r with timeSeries := r.timeSeries.map fun series =>
          { series with points :=
            [{ interval := { startTime := { seconds := t.unix }
                             endTime := { seconds := t.unix } }
               value := .int64Value 6 }] } } := by
  simp only [NewIntegerTypedValueTransformer, mathRound_5p5]

/-- Witness for C7 on a concrete single-series request. -/
theorem integer_transformer_rounds_witness :
    0 < sampleRequest.timeSeries.length
    ∧ NewIntegerTypedValueTransformer (some sampleRequest)
        { value := 5.5, timestamp := { sec := 1700000000, nsec := 500000000 } }
      = .ok { sampleRequest with
          timeSeries := sampleRequest.timeSeries.map fun series =>
            { series with points :=
              [{ interval := { startTime := { seconds := 1700000000 }
                               endTime := { seconds := 1700000000 } }
                 value := .int64Value 6 }] } } :=
  ⟨by simp [sampleRequest],
    integer_transformer_rounds sampleRequest
      { sec := 1700000000, nsec := 500000000 } (by simp [sampleRequest])⟩

/-- C9: every transformer variant is idempotent: applying it twice in
succession with the same sample produces exactly the result of applying it
once (in particular the final resource descriptor is unchanged by the
second application). -/
theorem transformers_idempotent
    (projectID location namespaceID nodeID instanceID zone clusterName podID
      containerName nodeName : String)
    (r : CreateTimeSeriesRequest) (metric : generators.Metric) :
    applyTwice (NewGenericMonitoredResourceTransformer projectID location
        namespaceID nodeID) r metric
      = NewGenericMonitoredResourceTransformer projectID location namespaceID
        nodeID (some r) metric
    ∧ applyTwice (NewGCEMonitoredResourceTransformer projectID instanceID zone)
        r metric
      = NewGCEMonitoredResourceTransformer projectID instanceID zone (some r) metric
    ∧ applyTwice (NewGKEMonitoredResourceTransformer projectID clusterName
        namespaceID instanceID podID containerName zone) r metric
      = NewGKEMonitoredResourceTransformer projectID clusterName namespaceID
        instanceID podID containerName zone (some r) metric
    ∧ applyTwice NewDoubleTypedValueTransformer r metric
      = NewDoubleTypedValueTransformer (some r) metric
    ∧ applyTwice NewIntegerTypedValueTransformer r metric
      = NewIntegerTypedValueTransformer (some r) metric
    ∧ applyTwice (NewGenericKubernetesClusterMonitoredResourceTransformer
        projectID location clusterName) r metric
      = NewGenericKubernetesClusterMonitoredResourceTransformer projectID
        location clusterName (some r) metric
    ∧ applyTwice (NewGenericKubernetesContainerMonitoredResourceTransformer
        projectID location clusterName namespaceID podID containerName) r metric
      = NewGenericKubernetesContainerMonitoredResourceTransformer projectID
        location clusterName namespaceID podID containerName (some r) metric
    ∧ applyTwice (NewGenericKubernetesNodeMonitoredResourceTransformer
        projectID location clusterName nodeName) r metric
      = NewGenericKubernetesNodeMonitoredResourceTransformer projectID location
        clusterName nodeName (some r) metric
    ∧ applyTwice (NewGenericKubernetesPodMonitoredResourceTransformer
        projectID location clusterName namespaceID podID) r metric
      = NewGenericKubernetesPodMonitoredResourceTransformer projectID location
        clusterName namespaceID podID (some r) metric := by
  refine ⟨?_, ?_, ?_, ?_, ?_, ?_, ?_, ?_, ?_⟩
  · simp only [applyTwice, NewGenericMonitoredResourceTransformer]
    rw [List.map_map]
    rfl
  · simp only [applyTwice, NewGCEMonitoredResourceTransformer]
    rw [List.map_map]
    rfl
  · simp only [applyTwice, NewGKEMonitoredResourceTransformer]
    rw [List.map_map]
    rfl
  · simp only [applyTwice, NewDoubleTypedValueTransformer]
    rw [List.map_map]
    rfl
  · simp only [applyTwice, NewIntegerTypedValueTransformer]
    rw [List.map_map]
    rfl
  · simp only [applyTwice, NewGenericKubernetesClusterMonitoredResourceTransformer]
    rw [List.map_map]
    rfl
  · simp only [applyTwice, NewGenericKubernetesContainerMonitoredResourceTransformer]
    rw [List.map_map]
    rfl
  · simp only [applyTwice, NewGenericKubernetesNodeMonitoredResourceTransformer]
    rw [List.map_map]
    rfl
  · simp only [applyTwice, NewGenericKubernetesPodMonitoredResourceTransformer]
    rw [List.map_map]
    rfl

/-- C10: both value transformers build the data point interval from only
the whole-seconds part (`Unix()`) of the sample timestamp, so two samples
whose timestamps agree on the whole second (differing only in the
sub-second component) produce identical interval start and end times. -/
theorem value_transformers_whole_seconds (r : CreateTimeSeriesRequest)
    (v1 v2 : ℝ) (t1 t2 : generators.Time) (h : t1.sec = t2.sec) :
    NewDoubleTypedValueTransformer (some r) { value := v1, timestamp := t1 }
        = .ok { r with timeSeries := r.timeSeries.map fun series =>
            { series with points :=
              [{ interval := { startTime := { seconds := t1.sec }
                               endTime := { seconds := t1.sec } }
                 value := .doubleValue v1 }] } }
    ∧ NewIntegerTypedValueTransformer (some r) { value := v1, timestamp := t1 }
        = .ok { r with timeSeries := r.timeSeries.map fun series =>
            { series with points :=
              [{ interval := { startTime := { seconds := t1.sec }
                               endTime := { seconds := t1.sec } }
                 value := .int64Value (mathRound v1) }] } }
    ∧ requestIntervals
          (NewDoubleTypedValueTransformer (some r) { value := v1, timestamp := t1 })
        = requestIntervals
          (NewDoubleTypedValueTransformer (some r) { value := v2, timestamp := t2 })
    ∧ requestIntervals
          (NewIntegerTypedValueTransformer (some r) { value := v1, timestamp := t1 })
        = requestIntervals
          (NewIntegerTypedValueTransformer (some r) { value := v2, timestamp := t2 }) := by
  refine ⟨rfl, rfl, ?_, ?_⟩
  · simp only [NewDoubleTypedValueTransformer, requestIntervals, List.map_map]
    simp [generators.Time.unix, h]
  · simp only [NewIntegerTypedValueTransformer, requestIntervals, List.map_map]
    simp [generators.Time.unix, h]

/-- Witness for C10 on a concrete request and two timestamps in the same
second. -/
theorem value_transformers_whole_seconds_witness :
    ((⟨1700000000, 1⟩ : generators.Time).sec
      = (⟨1700000000, 999999999⟩ : generators.Time).sec)
    ∧ (NewDoubleTypedValueTransformer (some sampleRequest)
          { value := 5.5, timestamp := ⟨1700000000, 1⟩ }
        = .ok { sampleRequest with
            timeSeries := sampleRequest.timeSeries.map fun series =>
              { series with points :=
                [{ interval := { startTime := { seconds := 1700000000 }
                                 endTime := { seconds := 1700000000 } }
                   value := .doubleValue 5.5 }] } }
      ∧ NewIntegerTypedValueTransformer (some sampleRequest)
          { value := 5.5, timestamp := ⟨1700000000, 1⟩ }
        = .ok { sampleRequest with
            timeSeries := sampleRequest.timeSeries.map fun series =>
              { series with points :=
                [{ interval := { startTime := { seconds := 1700000000 }
                                 endTime := { seconds := 1700000000 } }
                   value := .int64Value (mathRound 5.5) }] } }
      ∧ requestIntervals (NewDoubleTypedValueTransformer (some sampleRequest)
            { value := 5.5, timestamp := ⟨1700000000, 1⟩ })
          = requestIntervals (NewDoubleTypedValueTransformer (some sampleRequest)
            { value := 2.25, timestamp := ⟨1700000000, 999999999⟩ })
      ∧ requestIntervals (NewIntegerTypedValueTransformer (some sampleRequest)
            { value := 5.5, timestamp := ⟨1700000000, 1⟩ })
          = requestIntervals (NewIntegerTypedValueTransformer (some sampleRequest)
            { value := 2.25, timestamp := ⟨1700000000, 999999999⟩ })) :=
  ⟨rfl, value_transformers_whole_seconds sampleRequest 5.5 2.25
    ⟨1700000000, 1⟩ ⟨1700000000, 999999999⟩ rfl⟩

end claims

namespace claims

open generators

/-- C8: for every tick processed by the running producer, phase zero is the
timestamp of the first tick ever received (this tick itself when none came
before); the sample built for the tick has value
`calculator((tick − t0) seconds / period seconds)` and timestamp equal to
the tick; and the non-blocking send appends the sample exactly when the
output channel has spare capacity, silently dropping it otherwise. -/
theorem producer_sample_spec (calculator : ℝ → ℝ) (period : ℤ) (bufferSize : ℕ)
    (prior : List Time) (pending : List Metric) (tick : Time) :
    producerTick calculator period bufferSize
        { tZero := (producerRun calculator period bufferSize prior).tZero
          channel := pending } tick
      = { tZero := some (prior.headD tick)
          channel :=
            if pending.length < bufferSize
            then pending
              ++ [{ value := calculator (durationSeconds (tick.sub (prior.headD tick))
                      / durationSeconds period)
                    timestamp := tick }]
            else pending } := by
  cases prior with
  | nil => simp [producerTick, producerRun]
  | cons t rest =>
    rw [producerRun_tZero]
    simp [producerTick]

end claims
